import Mathlib

/-!
Verification of the Bitcoin Laboratory interactive console program
(`bitcoin_lab.py`), a menu loop delegating wallet, network and
transaction-building operations to an external Bitcoin library.

The embedding is shallow.  Every delegated call (the `bit` library, the
`requests` HTTP client, Python's `int()`/`float()` string conversions) is an
oracle collected in an `Env` structure; a call that may raise an exception is
an `Except String` value whose error component is the stringified exception.
Observable behaviour (prints, `input()` prompts, outbound library/network
calls) is recorded as a list of `Event`s.  Python functions that return
either a typed value or an error string are modelled with the `Ret` union
type; `isinstance` checks in the caller become matches on `Ret`.
-/

namespace BitcoinLab

/-- The Python union "typed value or error string": every externally-facing
operation returns its success type on success and an error string otherwise. -/
inductive Ret (α : Type) where
  | val : α → Ret α
  | err : String → Ret α
deriving DecidableEq, Repr

/-- Minimal JSON value model, for the body returned by the price endpoint. -/
inductive Json where
  | str : String → Json
  | num : Rat → Json
  | obj : List (String × Json) → Json
  | arr : List Json → Json
  | boolean : Bool → Json
  | null : Json

/-- Python `d[k]` on the field list of a JSON object: first matching key, or a
KeyError (stringified, since all exceptions are stringified when caught). -/
def lookupField : List (String × Json) → String → Except String Json
  | [], k => .error ("KeyError: " ++ k)
  | (k', v) :: rest, k => if k' = k then .ok v else lookupField rest k

/-- Python subscript `x[k]` with a string key: only objects support it; any
other JSON value raises a TypeError. -/
def jsonGet : Json → String → Except String Json
  | .obj fields, k => lookupField fields k
  | _, _ => .error "TypeError: value is not subscriptable by string"

/-- Python `.replace(',', '')` is only available on strings; any other value
for the `rate` field raises an AttributeError. -/
def asString : Json → Except String String
  | .str s => .ok s
  | _ => .error "AttributeError: value has no attribute replace"

/-- `s.replace(',', '')`: remove every comma. -/
def stripCommas (s : String) : String :=
  String.mk (s.data.filter (fun c => c ≠ ','))

/-- A wallet record as built by `create_wallet` / `create_segwit_wallet`. -/
structure Wallet where
  private_key : String
  address : String
  format : String
deriving DecidableEq, Repr, Inhabited

/-- The record returned by `simulate_transaction` on success. -/
structure TxRecord where
  source : String
  destination : String
  amount_btc : Rat
  tx_hex : String
deriving DecidableEq, Repr

/-- Outbound library/network calls the program can make.  `sendTransaction`
is in the vocabulary (the `bit` library can broadcast) but the program never
emits it: transaction simulation only builds the hex. -/
inductive ExtCall where
  | getBalance (address : String)
  | getTransactions (address : String)
  | getFeeCached
  | priceGet
  | createTransaction (wif : String) (outputs : List (String × Rat × String))
      (fee : Ret Int) (absolute_fee : Bool) (message : String)
  | sendTransaction
deriving DecidableEq, Repr

/-- Observable events of a run: console prints, `input(prompt)` reads, and
outbound calls. -/
inductive Event where
  | print (s : String)
  | prompt (s : String)
  | call (c : ExtCall)
deriving DecidableEq, Repr

/-- The oracle environment: the delegated library, the HTTP client and
Python's numeric string conversions.  `entropyWif` is the stream of WIF
strings produced by `generate_private_key` (32 random bytes WIF-encoded);
`keyToWif`/`keyAddress` are `Key(wif).to_wif()` / `.address`;
`segwitToWif`/`segwitAddress` are `SegWitKey.from_wif(wif).to_wif()` /
`.segwit_address`.  `createTransaction` takes the fee argument as the
`Ret Int` union, exactly as the program passes `estimate_fee()`'s result
(int on success, error string on failure); exceptions raised by the `Key`
constructor inside `simulate_transaction` are folded into its error
component.  `parseInt`/`parseFloat` model Python `int()`/`float()`, with
`none` for a ValueError. -/
structure Env where
  entropyWif : Nat → String
  keyToWif : String → String
  keyAddress : String → String
  segwitToWif : String → String
  segwitAddress : String → String
  getBalance : String → Except String Int
  getTransactions : String → Except String (List String)
  getFeeCached : Except String Int
  priceGet : Except String Json
  createTransaction : String → List (String × Rat × String) → Ret Int → Bool →
      String → Except String String
  parseInt : String → Option Int
  parseFloat : String → Option Rat

/-- `generate_private_key`: draws the next WIF from the entropy stream;
returns it with the advanced stream position. -/
def generate_private_key (env : Env) (rng : Nat) : String × Nat :=
  (env.entropyWif rng, rng + 1)

/-- `create_wallet`: legacy (P2PKH) wallet from fresh entropy. -/
def create_wallet (env : Env) (rng : Nat) : Wallet × Nat :=
  let (private_key, rng') := generate_private_key env rng
  ({ private_key := env.keyToWif private_key,
     address := env.keyAddress private_key,
     format := "P2PKH (Legacy)" }, rng')

/-- `create_segwit_wallet`: SegWit wallet; the key is round-tripped through
`Key(private_key).to_wif()` before building the `SegWitKey`. -/
def create_segwit_wallet (env : Env) (rng : Nat) : Wallet × Nat :=
  let (private_key, rng') := generate_private_key env rng
  let wif := env.keyToWif private_key
  ({ private_key := env.segwitToWif wif,
     address := env.segwitAddress wif,
     format := "P2SH-P2WPKH (SegWit)" }, rng')

/-- `get_balance`: delegated balance lookup with blanket catch-and-stringify. -/
def get_balance (env : Env) (address : String) : List Event × Ret Int :=
  ([.call (.getBalance address)],
   match env.getBalance address with
   | .ok v => .val v
   | .error e => .err ("Error getting balance: " ++ e))

/-- `get_transaction_history`: delegated lookup with blanket catch. -/
def get_transaction_history (env : Env) (address : String) :
    List Event × Ret (List String) :=
  ([.call (.getTransactions address)],
   match env.getTransactions address with
   | .ok v => .val v
   | .error e => .err ("Error getting transaction history: " ++ e))

/-- `estimate_fee`: delegated `get_fee_cached()` with blanket catch. -/
def estimate_fee (env : Env) : List Event × Ret Int :=
  ([.call .getFeeCached],
   match env.getFeeCached with
   | .ok v => .val v
   | .error e => .err ("Error estimating fee: " ++ e))

/-- The field navigation `data['bpi']['USD']['rate']` followed by the check
that the rate supports `.replace` (is a string). -/
def pricePath (data : Json) : Except String String := do
  let bpi ← jsonGet data "bpi"
  let usd ← jsonGet bpi "USD"
  let rate ← jsonGet usd "rate"
  asString rate

/-- `get_bitcoin_price`: HTTP GET of the price endpoint, JSON field
navigation, comma removal, `float()` conversion; any exception on the way is
caught and stringified. -/
def get_bitcoin_price (env : Env) : List Event × Ret Rat :=
  ([.call .priceGet],
   match env.priceGet with
   | .error e => .err ("Error getting price: " ++ e)
   | .ok data =>
     match pricePath data with
     | .error e => .err ("Error getting price: " ++ e)
     | .ok rate =>
       match env.parseFloat (stripCommas rate) with
       | none => .err ("Error getting price: " ++
           ("ValueError: could not convert string to float: " ++ stripCommas rate))
       | some price => .val price)

/-- The fixed message payload embedded in every simulated transaction. -/
def txMessage : String := "Test transaction from Bitcoin Laboratory"

/-- `simulate_transaction`: builds (but never broadcasts) a transaction.  The
fee keyword argument is `estimate_fee()`'s result passed as-is — the `Ret Int`
union — with `absolute_fee=True` and the fixed message. -/
def simulate_transaction (env : Env) (source_wif destination_address : String)
    (amount_btc : Rat) : List Event × Ret TxRecord :=
  let wallet_address := env.keyAddress source_wif
  let (feeTrace, fee) := estimate_fee env
  let outputs := [(destination_address, amount_btc, "btc")]
  let callEvent := Event.call
    (.createTransaction source_wif outputs fee true txMessage)
  match env.createTransaction source_wif outputs fee true txMessage with
  | .ok tx_hex =>
    (feeTrace ++ [callEvent],
     .val { source := wallet_address
            destination := destination_address
            amount_btc := amount_btc
            tx_hex := tx_hex })
  | .error e =>
    (feeTrace ++ [callEvent], .err ("Error creating transaction: " ++ e))

/-- `show_menu`: the eight menu lines plus banner/footer, printed each turn. -/
def show_menu : List Event :=
  [.print "\n===== BITCOIN LABORATORY =====",
   .print "1. Create new Bitcoin wallet (Legacy)",
   .print "2. Create new Bitcoin wallet (SegWit)",
   .print "3. Check address balance",
   .print "4. Check transaction history",
   .print "5. Estimate current network fee",
   .print "6. Check current Bitcoin price",
   .print "7. Simulate transaction",
   .print "0. Exit",
   .print "=============================="]

/-- Session state of `main`: the wallet list, the stdin cursor and the
entropy-stream cursor. -/
structure St where
  wallets : List Wallet
  pos : Nat
  rng : Nat
deriving DecidableEq, Repr

/-- The branch chosen by the `if option == "1" ... elif ... else` chain. -/
inductive MenuChoice where
  | a1 | a2 | a3 | a4 | a5 | a6 | a7 | exitOpt | invalid
deriving DecidableEq, Repr

/-- The dispatch of `main`'s elif chain on the raw option string, in source
order: "1".."7", then "0", then the catch-all invalid branch. -/
def menuDispatch (option : String) : MenuChoice :=
  if option = "1" then .a1
  else if option = "2" then .a2
  else if option = "3" then .a3
  else if option = "4" then .a4
  else if option = "5" then .a5
  else if option = "6" then .a6
  else if option = "7" then .a7
  else if option = "0" then .exitOpt
  else .invalid

/-- Whether a `MenuChoice` is one of the dispatched actions (as opposed to
exit or the invalid-option branch). -/
def isActionChoice : MenuChoice → Bool
  | .a1 | .a2 | .a3 | .a4 | .a5 | .a6 | .a7 => true
  | .exitOpt | .invalid => false

/-- The input strings `main` dispatches to an action. -/
def actionInputs : List String := ["1", "2", "3", "4", "5", "6", "7"]

/-- How a branch of the loop body ends: fall through to the
"Press Enter to continue..." read (`normal`), jump back to the menu with
`continue` (`skipAck`), or leave the loop with `break` (`stop`). -/
inductive Flow where
  | normal | skipAck | stop
deriving DecidableEq, Repr

/-- Python's `f"{balance/100000000:.8f}"`: satoshis rendered as BTC with
eight decimal places (text only; no claim depends on it). -/
def fmtBtc8 (b : Int) : String :=
  let q := b / 100000000
  let r := (b % 100000000).toNat
  let digits := toString r
  toString q ++ "." ++ String.mk (List.replicate (8 - digits.length) '0') ++ digits

/-- Option 1: create a legacy wallet, append it, print its details. -/
def action1 (env : Env) (st : St) : List Event × St :=
  let (new_wallet, rng') := create_wallet env st.rng
  ([.print "\n--- NEW WALLET CREATED (LEGACY) ---",
    .print ("Address: " ++ new_wallet.address),
    .print ("Private key (WIF): " ++ new_wallet.private_key),
    .print "IMPORTANT: Save your private key in a secure place!"],
   { st with wallets := st.wallets ++ [new_wallet], rng := rng' })

/-- Option 2: create a SegWit wallet, append it, print its details. -/
def action2 (env : Env) (st : St) : List Event × St :=
  let (new_wallet, rng') := create_segwit_wallet env st.rng
  ([.print "\n--- NEW WALLET CREATED (SEGWIT) ---",
    .print ("Address: " ++ new_wallet.address),
    .print ("Private key (WIF): " ++ new_wallet.private_key),
    .print "IMPORTANT: Save your private key in a secure place!"],
   { st with wallets := st.wallets ++ [new_wallet], rng := rng' })

/-- Option 3: read an address, look up its balance, print balance or error
depending on the runtime type (`isinstance(balance, int)`). -/
def action3 (env : Env) (stdin : Nat → String) (st : St) : List Event × St :=
  let address := stdin st.pos
  let st1 : St := { st with pos := st.pos + 1 }
  let (tr, balance) := get_balance env address
  let out := match balance with
    | .val b => [Event.print ("\nBalance: " ++ toString b ++ " satoshis (" ++
        fmtBtc8 b ++ " BTC)")]
    | .err s => [Event.print s]
  (Event.prompt "Enter Bitcoin address: " :: tr ++ out, st1)

/-- Option 4: read an address, fetch its history, print the enumerated
transaction ids or the error string (`isinstance(transactions, list)`). -/
def action4 (env : Env) (stdin : Nat → String) (st : St) : List Event × St :=
  let address := stdin st.pos
  let st1 : St := { st with pos := st.pos + 1 }
  let (tr, transactions) := get_transaction_history env address
  let out := match transactions with
    | .val l =>
      Event.print ("\nTransaction history for " ++ address ++ ":") ::
      l.enum.map (fun p => Event.print (toString (p.1 + 1) ++ ". TxID: " ++ p.2))
    | .err s => [Event.print s]
  (Event.prompt "Enter Bitcoin address: " :: tr ++ out, st1)

/-- Option 5: estimate the fee, print it or the error string. -/
def action5 (env : Env) (st : St) : List Event × St :=
  let (tr, fee) := estimate_fee env
  let out := match fee with
    | .val f => [Event.print ("\nEstimated fee: " ++ toString f ++ " satoshis/byte")]
    | .err s => [Event.print s]
  (tr ++ out, st)

/-- Option 6: fetch the price, print it (Python's `${price:,.2f}` formatting
abbreviated to `toString`) or the error string. -/
def action6 (env : Env) (st : St) : List Event × St :=
  let (tr, price) := get_bitcoin_price env
  let out := match price with
    | .val p => [Event.print ("\nCurrent Bitcoin price: $" ++ toString p ++ " USD")]
    | .err s => [Event.print s]
  (tr ++ out, st)

/-- Option 7: transaction simulation.  With no wallets: message and
`continue` (skipping the acknowledgement).  Otherwise list wallets, read the
index (`int()` may raise ValueError), range-check it (`continue` on
failure), read destination and amount (`float()` may raise ValueError), run
the simulation and print the result; the ValueError handler prints
"Invalid input." and falls through to the acknowledgement. -/
def action7 (env : Env) (stdin : Nat → String) (st : St) :
    List Event × St × Flow :=
  if st.wallets = [] then
    ([.print "\nYou must create at least one wallet first (option 1 or 2)."],
     st, .skipAck)
  else
    let walletList : List Event :=
      Event.print "\nAvailable wallets:" ::
      st.wallets.enum.map (fun p =>
        Event.print (toString (p.1 + 1) ++ ". " ++ p.2.address ++ " (" ++
          p.2.format ++ ")"))
    let header := walletList ++ [Event.prompt "\nSelect source wallet (number): "]
    let idxInput := stdin st.pos
    let st1 : St := { st with pos := st.pos + 1 }
    match env.parseInt idxInput with
    | none =>
      (header ++ [.print "Invalid input. Please enter a valid number."],
       st1, .normal)
    | some n =>
      let index : Int := n - 1
      if index < 0 ∨ (st.wallets.length : Int) ≤ index then
        (header ++ [.print "Invalid selection."], st1, .skipAck)
      else
        let source_wif := (st.wallets.getD index.toNat default).private_key
        let destination := stdin st1.pos
        let st2 : St := { st1 with pos := st1.pos + 1 }
        let amountInput := stdin st2.pos
        let st3 : St := { st2 with pos := st2.pos + 1 }
        let header2 := header ++
          [Event.prompt "Enter destination address: ",
           Event.prompt "Enter amount in BTC: "]
        match env.parseFloat amountInput with
        | none =>
          (header2 ++ [.print "Invalid input. Please enter a valid number."],
           st3, .normal)
        | some amount =>
          let (simTrace, result) :=
            simulate_transaction env source_wif destination amount
          let out := match result with
            | .val r =>
              [Event.print "\n--- TRANSACTION SIMULATION ---",
               .print ("Source: " ++ r.source),
               .print ("Destination: " ++ r.destination),
               .print ("Amount: " ++ toString r.amount_btc ++ " BTC"),
               .print ("Transaction hex: " ++ r.tx_hex.take 64 ++ "..."),
               .print "NOTE: This is just a simulation, no actual transaction has been sent."]
            | .err s => [Event.print s]
          (header2 ++ simTrace ++ out, st3, .normal)

/-- The acknowledgement read at the bottom of the loop body. -/
def ackEvent : Event := .prompt "\nPress Enter to continue..."

/-- One iteration of `main`'s `while True` loop: menu, option read, dispatch,
then (unless a branch did `continue` or `break`) the acknowledgement read.
Returns the events, the next state and whether the loop continues. -/
def loopIter (env : Env) (stdin : Nat → String) (st : St) :
    List Event × St × Bool :=
  let option := stdin st.pos
  let st0 : St := { st with pos := st.pos + 1 }
  let (tr, st', flow) :=
    match menuDispatch option with
    | .a1 => let (t, s) := action1 env st0; (t, s, Flow.normal)
    | .a2 => let (t, s) := action2 env st0; (t, s, Flow.normal)
    | .a3 => let (t, s) := action3 env stdin st0; (t, s, Flow.normal)
    | .a4 => let (t, s) := action4 env stdin st0; (t, s, Flow.normal)
    | .a5 => let (t, s) := action5 env st0; (t, s, Flow.normal)
    | .a6 => let (t, s) := action6 env st0; (t, s, Flow.normal)
    | .a7 => action7 env stdin st0
    | .exitOpt =>
      ([.print "\nThank you for using the Bitcoin Laboratory. Goodbye!"],
       st0, Flow.stop)
    | .invalid =>
      ([.print "\nInvalid option. Please select a valid option."],
       st0, Flow.normal)
  match flow with
  | .normal =>
    (show_menu ++ [Event.prompt "\nSelect an option: "] ++ tr ++ [ackEvent],
     { st' with pos := st'.pos + 1 }, true)
  | .skipAck =>
    (show_menu ++ [Event.prompt "\nSelect an option: "] ++ tr, st', true)
  | .stop =>
    (show_menu ++ [Event.prompt "\nSelect an option: "] ++ tr, st', false)

/-- Run the loop for up to `fuel` iterations (it stops early on exit). -/
def runLoop (env : Env) (stdin : Nat → String) : Nat → St → St
  | 0, st => st
  | fuel + 1, st =>
    let (_, st', cont) := loopIter env stdin st
    if cont then runLoop env stdin fuel st' else st'

/-- The exact condition under which the loop body reaches a `continue`
statement and so skips the acknowledgement read: option 7 with an empty
wallet list, or option 7 with a parsed wallet index out of range. -/
def skipsAck (env : Env) (stdin : Nat → String) (st : St) : Bool :=
  decide (menuDispatch (stdin st.pos) = .a7) &&
  (st.wallets.isEmpty ||
    match env.parseInt (stdin (st.pos + 1)) with
    | some n => decide (n - 1 < 0 ∨ (st.wallets.length : Int) ≤ n - 1)
    | none => false)

/-- A well-shaped price-endpoint body, for concrete evaluations. -/
def priceJsonDemo : Json :=
  .obj [("bpi", .obj [("USD", .obj [("rate", .str "60,000")])])]

/-- An environment in which every delegated call succeeds, for concrete
evaluations of the embedding. -/
def envDemo : Env where
  entropyWif := fun n => "wif" ++ toString n
  keyToWif := fun s => s
  keyAddress := fun s => "L-" ++ s
  segwitToWif := fun s => s
  segwitAddress := fun s => "S-" ++ s
  getBalance := fun _ => .ok 5
  getTransactions := fun _ => .ok ["txid1"]
  getFeeCached := .ok 10
  priceGet := .ok priceJsonDemo
  createTransaction := fun _ _ _ _ _ => .ok "0200deadbeef"
  parseInt := fun s =>
    if s = "1" then some 1 else if s = "2" then some 2
    else if s = "5" then some 5 else none
  parseFloat := fun s =>
    if s = "60000" then some 60000 else if s = "2" then some 2 else none

/-- An environment in which every delegated call raises, for concrete
evaluations of the error paths. -/
def envFail : Env where
  entropyWif := fun n => "wif" ++ toString n
  keyToWif := fun s => s
  keyAddress := fun s => "L-" ++ s
  segwitToWif := fun s => s
  segwitAddress := fun s => "S-" ++ s
  getBalance := fun _ => .error "connection refused"
  getTransactions := fun _ => .error "connection refused"
  getFeeCached := .error "fee service down"
  priceGet := .error "connection refused"
  createTransaction := fun _ _ _ _ _ => .error "tx build failed"
  parseInt := fun s =>
    if s = "1" then some 1 else if s = "2" then some 2
    else if s = "5" then some 5 else none
  parseFloat := fun s =>
    if s = "60000" then some 60000 else if s = "2" then some 2 else none

/-- A concrete legacy wallet record, for concrete evaluations. -/
def wDemo : Wallet :=
  { private_key := "Kdemo", address := "1Demo", format := "P2PKH (Legacy)" }

/-! ## Helper lemmas -/

theorem getLast?_append_some {α : Type} (l₁ : List α) {l₂ : List α} {a : α}
    (h : l₂.getLast? = some a) : (l₁ ++ l₂).getLast? = some a := by
  induction l₁ with
  | nil => simpa using h
  | cons x xs ih =>
    rw [List.cons_append]
    cases hxs : xs ++ l₂ with
    | nil =>
      rcases List.append_eq_nil.mp hxs with ⟨-, h2⟩
      rw [h2] at h
      simp at h
    | cons y ys =>
      rw [hxs] at ih
      rw [List.getLast?_cons_cons]
      exact ih

theorem action7_wallets (env : Env) (stdin : Nat → String) (st : St) :
    (action7 env stdin st).2.1.wallets = st.wallets := by
  unfold action7
  split
  · rfl
  · dsimp only
    split
    · rfl
    · split
      · rfl
      · split
        · rfl
        · rfl

/-! ## Claim C1 -/

/-- C1: every externally-facing operation (`get_balance`,
`get_transaction_history`, `estimate_fee`, `get_bitcoin_price`,
`simulate_transaction`) converts any exception raised by the underlying
delegated call into a returned string of the form
"Error <doing X>: <message>" — a string beginning with "Error" — and returns
the typed success value (Int, List, Int, Rat, record) when the call
succeeds.  The operations are total Lean functions into the `Ret` union,
reflecting that they never raise. -/
theorem claim1_blanket_catch (env : Env)
    (address source_wif destination : String) (amount : Rat) :
    (∀ e, env.getBalance address = .error e →
       (get_balance env address).2 = .err ("Error getting balance: " ++ e) ∧
       ∃ r, "Error getting balance: " ++ e = "Error" ++ r) ∧
    (∀ v, env.getBalance address = .ok v → (get_balance env address).2 = .val v) ∧
    (∀ e, env.getTransactions address = .error e →
       (get_transaction_history env address).2 =
         .err ("Error getting transaction history: " ++ e) ∧
       ∃ r, "Error getting transaction history: " ++ e = "Error" ++ r) ∧
    (∀ l, env.getTransactions address = .ok l →
       (get_transaction_history env address).2 = .val l) ∧
    (∀ e, env.getFeeCached = .error e →
       (estimate_fee env).2 = .err ("Error estimating fee: " ++ e) ∧
       ∃ r, "Error estimating fee: " ++ e = "Error" ++ r) ∧
    (∀ v, env.getFeeCached = .ok v → (estimate_fee env).2 = .val v) ∧
    (∀ e, env.priceGet = .error e →
       (get_bitcoin_price env).2 = .err ("Error getting price: " ++ e) ∧
       ∃ r, "Error getting price: " ++ e = "Error" ++ r) ∧
    (∀ j s q, env.priceGet = .ok j → pricePath j = .ok s →
       env.parseFloat (stripCommas s) = some q →
       (get_bitcoin_price env).2 = .val q) ∧
    (∀ e, env.createTransaction source_wif [(destination, amount, "btc")]
        (estimate_fee env).2 true txMessage = .error e →
       (simulate_transaction env source_wif destination amount).2 =
         .err ("Error creating transaction: " ++ e) ∧
       ∃ r, "Error creating transaction: " ++ e = "Error" ++ r) ∧
    (∀ h, env.createTransaction source_wif [(destination, amount, "btc")]
        (estimate_fee env).2 true txMessage = .ok h →
       (simulate_transaction env source_wif destination amount).2 =
         .val { source := env.keyAddress source_wif, destination := destination,
                amount_btc := amount, tx_hex := h }) := by
  refine ⟨?_, ?_, ?_, ?_, ?_, ?_, ?_, ?_, ?_, ?_⟩
  · intro e he
    refine ⟨by simp [get_balance, he], ⟨" getting balance: " ++ e, ?_⟩⟩
    rw [← String.append_assoc]
    rfl
  · intro v hv
    simp [get_balance, hv]
  · intro e he
    refine ⟨by simp [get_transaction_history, he],
      ⟨" getting transaction history: " ++ e, ?_⟩⟩
    rw [← String.append_assoc]
    rfl
  · intro l hl
    simp [get_transaction_history, hl]
  · intro e he
    refine ⟨by simp [estimate_fee, he], ⟨" estimating fee: " ++ e, ?_⟩⟩
    rw [← String.append_assoc]
    rfl
  · intro v hv
    simp [estimate_fee, hv]
  · intro e he
    refine ⟨by simp [get_bitcoin_price, he], ⟨" getting price: " ++ e, ?_⟩⟩
    rw [← String.append_assoc]
    rfl
  · intro j s q hj hp hf
    simp [get_bitcoin_price, hj, hp, hf]
  · intro e he
    simp only [estimate_fee] at he
    refine ⟨by simp [simulate_transaction, estimate_fee, he],
      ⟨" creating transaction: " ++ e, ?_⟩⟩
    rw [← String.append_assoc]
    rfl
  · intro h hh
    simp only [estimate_fee] at hh
    simp [simulate_transaction, estimate_fee, hh]

/-- C1 witness: concrete failing and succeeding environments exercise both
sides for representative operations. -/
theorem claim1_blanket_catch_witness :
    (get_balance envFail "1BitcoinEater").2 =
      .err ("Error getting balance: " ++ "connection refused") ∧
    (get_balance envDemo "1BitcoinEater").2 = .val 5 ∧
    (get_bitcoin_price envDemo).2 = .val 60000 ∧
    (simulate_transaction envFail "K" "dest" 2).2 =
      .err ("Error creating transaction: " ++ "tx build failed") :=
  ⟨((claim1_blanket_catch envFail "1BitcoinEater" "K" "dest" 2).1
      "connection refused" rfl).1,
   (claim1_blanket_catch envDemo "1BitcoinEater" "K" "dest" 2).2.1 5 rfl,
   (claim1_blanket_catch envDemo "a" "K" "dest" 2).2.2.2.2.2.2.2.1
      priceJsonDemo "60,000" 60000 rfl rfl (by decide),
   ((claim1_blanket_catch envFail "a" "K" "dest" 2).2.2.2.2.2.2.2.2.1
      "tx build failed" rfl).1⟩

/-! ## Claim C2 -/

/-- C2 counterexample: selecting option 7 with zero wallets completes the
action (the loop continues and the menu is redisplayed) yet the iteration
never reaches the "Press Enter to continue..." prompt — the `continue`
statement skips the acknowledgement read entirely. -/
theorem claim2_ack_cex :
    (loopIter envDemo (fun _ => "7") { wallets := [], pos := 0, rng := 0 }).2.2
        = true ∧
    ackEvent ∉
      (loopIter envDemo (fun _ => "7") { wallets := [], pos := 0, rng := 0 }).1 := by
  decide

/-- C2 (amended): after every menu action — options "1" through "7" and the
invalid-option branch — the loop blocks on the "Press Enter to continue..."
prompt before redisplaying the menu, EXCEPT the two `continue` branches of
option 7 (zero wallets created, and out-of-range wallet index), which return
to the menu immediately without the acknowledgement; `skipsAck` characterizes
exactly those two branches.  In every non-exit case the loop continues. -/
theorem claim2_ack_amended (env : Env) (stdin : Nat → String) (st : St)
    (h : menuDispatch (stdin st.pos) ≠ .exitOpt) :
    ((loopIter env stdin st).1.getLast? = some ackEvent ↔
      skipsAck env stdin st = false) ∧
    (loopIter env stdin st).2.2 = true := by
  cases hd : menuDispatch (stdin st.pos) with
  | exitOpt => exact absurd hd h
  | a1 => simp [loopIter, hd, action1, skipsAck, ackEvent, ← List.head?_reverse]
  | a2 => simp [loopIter, hd, action2, skipsAck, ackEvent, ← List.head?_reverse]
  | a3 => simp [loopIter, hd, action3, skipsAck, ackEvent, ← List.head?_reverse]
  | a4 => simp [loopIter, hd, action4, skipsAck, ackEvent, ← List.head?_reverse]
  | a5 => simp [loopIter, hd, action5, skipsAck, ackEvent, ← List.head?_reverse]
  | a6 => simp [loopIter, hd, action6, skipsAck, ackEvent, ← List.head?_reverse]
  | invalid => simp [loopIter, hd, skipsAck, ackEvent, ← List.head?_reverse]
  | a7 =>
    by_cases hw : st.wallets = []
    · simp [loopIter, hd, action7, skipsAck, hw, ackEvent, ← List.head?_reverse]
    · cases hpi : env.parseInt (stdin (st.pos + 1)) with
      | none =>
        simp [loopIter, hd, action7, skipsAck, hw, hpi, ackEvent,
          ← List.head?_reverse]
      | some n =>
        by_cases hr : (n < 1 ∨ (st.wallets.length : Int) ≤ n - 1)
        · simp [loopIter, hd, action7, skipsAck, hw, hpi, hr, ackEvent,
            ← List.head?_reverse]
        · cases hpf : env.parseFloat (stdin (st.pos + 1 + 1 + 1)) with
          | none =>
            simp [loopIter, hd, action7, skipsAck, hw, hpi, hr, hpf, ackEvent,
              ← List.head?_reverse]
          | some q =>
            simp [loopIter, hd, action7, skipsAck, hw, hpi, hr, hpf, ackEvent,
              ← List.head?_reverse]

/-- C2 witness: the amended characterization evaluated at option "1". -/
theorem claim2_ack_amended_witness :
    ((loopIter envDemo (fun _ => "1") { wallets := [], pos := 0, rng := 0 }).1.getLast?
        = some ackEvent ↔
      skipsAck envDemo (fun _ => "1") { wallets := [], pos := 0, rng := 0 } = false) ∧
    (loopIter envDemo (fun _ => "1") { wallets := [], pos := 0, rng := 0 }).2.2
        = true :=
  claim2_ack_amended envDemo (fun _ => "1") { wallets := [], pos := 0, rng := 0 }
    (by decide)

/-! ## Claim C3 -/

theorem isAction_menuDispatch_iff (s : String) :
    isActionChoice (menuDispatch s) = true ↔ s ∈ actionInputs := by
  unfold menuDispatch actionInputs
  split_ifs with h1 h2 h3 h4 h5 h6 h7 h8 <;> simp_all [isActionChoice]

theorem action7_no_stop (env : Env) (stdin : Nat → String) (st : St) :
    (action7 env stdin st).2.2 ≠ Flow.stop := by
  unfold action7
  split
  · simp
  · dsimp only
    split
    · simp
    · split
      · simp
      · split
        · simp
        · simp

/-- C3 counterexample: the menu does not accept 8 action options — there is
no duplicate-free list of 8 input strings each dispatching an action, since
the inputs that dispatch an action are exactly the 7 strings "1".."7". -/
theorem claim3_transitions_cex :
    ¬ ∃ l : List String, l.Nodup ∧ l.length = 8 ∧
        ∀ s, isActionChoice (menuDispatch s) = true ↔ s ∈ l := by
  rintro ⟨l, hnd, hlen, hiff⟩
  have hsub : ∀ s ∈ l, s ∈ actionInputs := fun s hs =>
    (isAction_menuDispatch_iff s).mp ((hiff s).mpr hs)
  have hcard : l.toFinset.card = 8 := by
    rw [List.toFinset_card_of_nodup hnd, hlen]
  have hsubF : l.toFinset ⊆ actionInputs.toFinset := by
    intro a ha
    rw [List.mem_toFinset] at ha ⊢
    exact hsub a ha
  have hle := Finset.card_le_card hsubF
  rw [hcard] at hle
  have h7 : actionInputs.toFinset.card = 7 := by decide
  omega

/-- C3 (amended): the menu loop's transition table accepts exactly 7 action
options ("1".."7") plus exit: input "0" terminates the loop after printing
the goodbye message, each action input dispatches its action and returns to
the menu, every other input prints the invalid-option message and returns to
the menu, and choosing "1" appends one wallet record with format
"P2PKH (Legacy)" to the session list. -/
theorem claim3_transitions_amended (env : Env) (stdin : Nat → String) (st : St) :
    (∀ s, isActionChoice (menuDispatch s) = true ↔ s ∈ actionInputs) ∧
    actionInputs.length = 7 ∧
    (stdin st.pos = "0" →
       (loopIter env stdin st).2.2 = false ∧
       (loopIter env stdin st).1.getLast? =
         some (.print "\nThank you for using the Bitcoin Laboratory. Goodbye!") ∧
       (loopIter env stdin st).2.1.wallets = st.wallets) ∧
    (isActionChoice (menuDispatch (stdin st.pos)) = true →
       (loopIter env stdin st).2.2 = true) ∧
    (menuDispatch (stdin st.pos) = .invalid →
       (loopIter env stdin st).2.2 = true ∧
       Event.print "\nInvalid option. Please select a valid option."
         ∈ (loopIter env stdin st).1 ∧
       (loopIter env stdin st).2.1.wallets = st.wallets) ∧
    (stdin st.pos = "1" →
       ∃ w, (loopIter env stdin st).2.1.wallets = st.wallets ++ [w] ∧
         w.format = "P2PKH (Legacy)" ∧ (loopIter env stdin st).2.2 = true) := by
  refine ⟨isAction_menuDispatch_iff, rfl, ?_, ?_, ?_, ?_⟩
  · intro h0
    have hd : menuDispatch (stdin st.pos) = .exitOpt := by rw [h0]; rfl
    simp [loopIter, hd, ← List.head?_reverse]
  · intro ha
    cases hd : menuDispatch (stdin st.pos) with
    | exitOpt => rw [hd] at ha; simp [isActionChoice] at ha
    | invalid => rw [hd] at ha; simp [isActionChoice] at ha
    | a7 =>
      simp only [loopIter, hd]
      rcases ha7 : action7 env stdin { st with pos := st.pos + 1 } with ⟨tr, st', flow⟩
      have hns := action7_no_stop env stdin { st with pos := st.pos + 1 }
      rw [ha7] at hns
      cases flow with
      | normal => simp
      | skipAck => simp
      | stop => exact absurd rfl hns
    | a1 => simp [loopIter, hd, action1]
    | a2 => simp [loopIter, hd, action2]
    | a3 => simp [loopIter, hd, action3]
    | a4 => simp [loopIter, hd, action4]
    | a5 => simp [loopIter, hd, action5]
    | a6 => simp [loopIter, hd, action6]
  · intro hd
    simp [loopIter, hd, show_menu]
  · intro h1
    have hd : menuDispatch (stdin st.pos) = .a1 := by rw [h1]; rfl
    exact ⟨(create_wallet env st.rng).1, by simp [loopIter, hd, action1], rfl,
      by simp [loopIter, hd, action1]⟩

/-- C3 witness: option "1" appends a legacy wallet; option "0" stops the
loop. -/
theorem claim3_transitions_amended_witness :
    (∃ w, (loopIter envDemo (fun _ => "1")
        { wallets := [], pos := 0, rng := 0 }).2.1.wallets = [] ++ [w] ∧
       w.format = "P2PKH (Legacy)" ∧
       (loopIter envDemo (fun _ => "1") { wallets := [], pos := 0, rng := 0 }).2.2
         = true) ∧
    (loopIter envDemo (fun _ => "0") { wallets := [], pos := 0, rng := 0 }).2.2
        = false :=
  ⟨(claim3_transitions_amended envDemo (fun _ => "1")
      { wallets := [], pos := 0, rng := 0 }).2.2.2.2.2 rfl,
   ((claim3_transitions_amended envDemo (fun _ => "0")
      { wallets := [], pos := 0, rng := 0 }).2.2.1 rfl).1⟩

/-! ## Claim C4 -/

/-- C4: when the underlying build succeeds, `simulate_transaction` returns
the record of source address (derived from the WIF), destination and amount
(equal to the inputs, unchanged) and the serialized hex; the builder is
invoked with `estimate_fee`'s current result as an absolute fee and the fixed
message payload; on failure it returns an error string; and no broadcast
call is ever emitted. -/
theorem claim4_simulation (env : Env) (source_wif destination : String)
    (amount : Rat) :
    (∀ tx_hex,
       env.createTransaction source_wif [(destination, amount, "btc")]
           (estimate_fee env).2 true txMessage = .ok tx_hex →
       (simulate_transaction env source_wif destination amount).2 =
         .val { source := env.keyAddress source_wif, destination := destination,
                amount_btc := amount, tx_hex := tx_hex } ∧
       Event.call (.createTransaction source_wif [(destination, amount, "btc")]
           (estimate_fee env).2 true txMessage)
         ∈ (simulate_transaction env source_wif destination amount).1) ∧
    (∀ e, env.createTransaction source_wif [(destination, amount, "btc")]
           (estimate_fee env).2 true txMessage = .error e →
       (simulate_transaction env source_wif destination amount).2 =
         .err ("Error creating transaction: " ++ e)) ∧
    Event.call .sendTransaction
      ∉ (simulate_transaction env source_wif destination amount).1 := by
  refine ⟨?_, ?_, ?_⟩
  · intro tx_hex hok
    simp only [estimate_fee] at hok
    exact ⟨by simp [simulate_transaction, estimate_fee, hok],
      by simp [simulate_transaction, estimate_fee, hok]⟩
  · intro e he
    simp only [estimate_fee] at he
    simp [simulate_transaction, estimate_fee, he]
  · simp only [simulate_transaction]
    split <;> simp [estimate_fee]

/-- C4 witness: a concrete successful simulation. -/
theorem claim4_simulation_witness :
    (simulate_transaction envDemo "Kdemo" "1Dest" 2).2 =
      .val { source := "L-Kdemo", destination := "1Dest", amount_btc := 2,
             tx_hex := "0200deadbeef" } ∧
    Event.call .sendTransaction
      ∉ (simulate_transaction envDemo "Kdemo" "1Dest" 2).1 :=
  ⟨((claim4_simulation envDemo "Kdemo" "1Dest" 2).1 "0200deadbeef" rfl).1,
   (claim4_simulation envDemo "Kdemo" "1Dest" 2).2.2⟩

/-! ## Claim C5 -/

/-- C5: for every response whose JSON body has the shape
bpi.USD.rate = string, `get_bitcoin_price` returns that rate string with
commas removed converted to a number; if the request fails, the body lacks
that shape, or the comma-stripped rate fails numeric conversion, it returns
an error string beginning "Error getting price:". -/
theorem claim5_price (env : Env) :
    (∀ j s q, env.priceGet = .ok j → pricePath j = .ok s →
       env.parseFloat (stripCommas s) = some q →
       (get_bitcoin_price env).2 = .val q) ∧
    (∀ e, env.priceGet = .error e →
       (get_bitcoin_price env).2 = .err ("Error getting price: " ++ e)) ∧
    (∀ j e, env.priceGet = .ok j → pricePath j = .error e →
       (get_bitcoin_price env).2 = .err ("Error getting price: " ++ e)) ∧
    (∀ j s, env.priceGet = .ok j → pricePath j = .ok s →
       env.parseFloat (stripCommas s) = none →
       ∃ m, (get_bitcoin_price env).2 = .err ("Error getting price: " ++ m)) ∧
    (∀ s, (get_bitcoin_price env).2 = .err s →
       ∃ r, s = "Error getting price: " ++ r) := by
  refine ⟨?_, ?_, ?_, ?_, ?_⟩
  · intro j s q hj hp hf
    simp [get_bitcoin_price, hj, hp, hf]
  · intro e he
    simp [get_bitcoin_price, he]
  · intro j e hj hp
    simp [get_bitcoin_price, hj, hp]
  · intro j s hj hp hf
    exact ⟨"ValueError: could not convert string to float: " ++ stripCommas s,
      by simp [get_bitcoin_price, hj, hp, hf]⟩
  · intro s hs
    cases hg : env.priceGet with
    | error e =>
      simp [get_bitcoin_price, hg] at hs
      exact ⟨e, hs.symm⟩
    | ok j =>
      cases hp : pricePath j with
      | error e =>
        simp [get_bitcoin_price, hg, hp] at hs
        exact ⟨e, hs.symm⟩
      | ok r =>
        cases hf : env.parseFloat (stripCommas r) with
        | none =>
          simp [get_bitcoin_price, hg, hp, hf] at hs
          exact ⟨_, hs.symm⟩
        | some q =>
          simp [get_bitcoin_price, hg, hp, hf] at hs

/-- C5 witness: the well-shaped demo body parses to 60000; the failing
environment yields the stringified request error. -/
theorem claim5_price_witness :
    (get_bitcoin_price envDemo).2 = .val 60000 ∧
    (get_bitcoin_price envFail).2 =
      .err ("Error getting price: " ++ "connection refused") :=
  ⟨(claim5_price envDemo).1 priceJsonDemo "60,000" 60000 rfl rfl rfl,
   (claim5_price envFail).2.1 "connection refused" rfl⟩

/-! ## Claim C6 -/

theorem menuDispatch_a1_iff (s : String) : menuDispatch s = .a1 ↔ s = "1" := by
  unfold menuDispatch
  split_ifs with h1 h2 h3 h4 h5 h6 h7 h8 <;> simp_all

theorem menuDispatch_a2_iff (s : String) : menuDispatch s = .a2 ↔ s = "2" := by
  unfold menuDispatch
  split_ifs with h1 h2 h3 h4 h5 h6 h7 h8 <;> simp_all

theorem loopIter_wallets (env : Env) (stdin : Nat → String) (st : St) :
    ∃ a, (loopIter env stdin st).2.1.wallets = st.wallets ++ a := by
  cases hd : menuDispatch (stdin st.pos) with
  | a1 => exact ⟨[(create_wallet env st.rng).1], by simp [loopIter, hd, action1]⟩
  | a2 =>
    exact ⟨[(create_segwit_wallet env st.rng).1], by simp [loopIter, hd, action2]⟩
  | a3 => exact ⟨[], by simp [loopIter, hd, action3]⟩
  | a4 => exact ⟨[], by simp [loopIter, hd, action4]⟩
  | a5 => exact ⟨[], by simp [loopIter, hd, action5]⟩
  | a6 => exact ⟨[], by simp [loopIter, hd, action6]⟩
  | a7 =>
    refine ⟨[], ?_⟩
    simp only [loopIter, hd]
    rcases ha7 : action7 env stdin { st with pos := st.pos + 1 } with ⟨tr, st', flow⟩
    have hw := action7_wallets env stdin { st with pos := st.pos + 1 }
    rw [ha7] at hw
    cases flow <;> simp_all
  | exitOpt => exact ⟨[], by simp [loopIter, hd]⟩
  | invalid => exact ⟨[], by simp [loopIter, hd]⟩

theorem runLoop_wallets (env : Env) (stdin : Nat → String) :
    ∀ (fuel : Nat) (st : St),
      ∃ rest, (runLoop env stdin fuel st).wallets = st.wallets ++ rest := by
  intro fuel
  induction fuel with
  | zero => exact fun st => ⟨[], by simp [runLoop]⟩
  | succ n ih =>
    intro st
    obtain ⟨a, ha⟩ := loopIter_wallets env stdin st
    simp only [runLoop]
    rcases hli : loopIter env stdin st with ⟨tr, st', cont⟩
    rw [hli] at ha
    cases cont with
    | true =>
      obtain ⟨b, hb⟩ := ih st'
      exact ⟨a ++ b, by simp only [] at ha ⊢; simp [hb, ha, List.append_assoc]⟩
    | false => exact ⟨a, by simpa using ha⟩

/-- C6: the session wallet list is append-only: every loop iteration either
appends exactly one wallet record at the end (options "1" and "2") or leaves
the list unchanged, and over any number of iterations the earlier list
remains an initial segment of the later one, so creation order and each
wallet's 1-based index are stable for the rest of the run. -/
theorem claim6_append_only (env : Env) (stdin : Nat → String) (st : St) :
    ((stdin st.pos = "1" ∨ stdin st.pos = "2") →
       ∃ w, (loopIter env stdin st).2.1.wallets = st.wallets ++ [w]) ∧
    (stdin st.pos ≠ "1" → stdin st.pos ≠ "2" →
       (loopIter env stdin st).2.1.wallets = st.wallets) ∧
    (∀ fuel, ∃ rest, (runLoop env stdin fuel st).wallets = st.wallets ++ rest) := by
  refine ⟨?_, ?_, fun fuel => runLoop_wallets env stdin fuel st⟩
  · rintro (h | h)
    · have hd : menuDispatch (stdin st.pos) = .a1 := by rw [h]; rfl
      exact ⟨(create_wallet env st.rng).1, by simp [loopIter, hd, action1]⟩
    · have hd : menuDispatch (stdin st.pos) = .a2 := by rw [h]; rfl
      exact ⟨(create_segwit_wallet env st.rng).1, by simp [loopIter, hd, action2]⟩
  · intro h1 h2
    cases hd : menuDispatch (stdin st.pos) with
    | a1 => exact absurd ((menuDispatch_a1_iff _).mp hd) h1
    | a2 => exact absurd ((menuDispatch_a2_iff _).mp hd) h2
    | a3 => simp [loopIter, hd, action3]
    | a4 => simp [loopIter, hd, action4]
    | a5 => simp [loopIter, hd, action5]
    | a6 => simp [loopIter, hd, action6]
    | a7 =>
      simp only [loopIter, hd]
      rcases ha7 : action7 env stdin { st with pos := st.pos + 1 } with ⟨tr, st', flow⟩
      have hw := action7_wallets env stdin { st with pos := st.pos + 1 }
      rw [ha7] at hw
      cases flow <;> simp_all
    | exitOpt => simp [loopIter, hd]
    | invalid => simp [loopIter, hd]

/-- C6 witness: option "1" appends one record; a non-action input leaves the
list unchanged. -/
theorem claim6_append_only_witness :
    (∃ w, (loopIter envDemo (fun _ => "1")
        { wallets := [wDemo], pos := 0, rng := 0 }).2.1.wallets = [wDemo] ++ [w]) ∧
    (loopIter envDemo (fun _ => "9")
        { wallets := [wDemo], pos := 0, rng := 0 }).2.1.wallets = [wDemo] :=
  ⟨(claim6_append_only envDemo (fun _ => "1")
      { wallets := [wDemo], pos := 0, rng := 0 }).1 (Or.inl rfl),
   (claim6_append_only envDemo (fun _ => "9")
      { wallets := [wDemo], pos := 0, rng := 0 }).2.1 (by decide) (by decide)⟩

/-! ## Claim C7 -/

/-- C7: selecting option "7" with an empty session wallet list prints only
the create-a-wallet-first message: no further prompt is issued, no
library/network call is emitted, the wallet list is unchanged (the whole
state advances only past the consumed option input) and the loop goes on. -/
theorem claim7_empty_wallets (env : Env) (stdin : Nat → String) (st : St)
    (hw : st.wallets = []) (h7 : stdin st.pos = "7") :
    (loopIter env stdin st).1 =
      show_menu ++ [Event.prompt "\nSelect an option: ",
        Event.print "\nYou must create at least one wallet first (option 1 or 2)."] ∧
    (∀ c, Event.call c ∉ (loopIter env stdin st).1) ∧
    (loopIter env stdin st).2.1 = { st with pos := st.pos + 1 } ∧
    (loopIter env stdin st).2.2 = true := by
  have hd : menuDispatch (stdin st.pos) = .a7 := by rw [h7]; rfl
  refine ⟨?_, ?_, ?_, ?_⟩
  · simp [loopIter, hd, action7, hw]
  · intro c
    simp [loopIter, hd, action7, hw, show_menu]
  · simp [loopIter, hd, action7, hw]
  · simp [loopIter, hd, action7, hw]

/-- C7 witness: the property evaluated at a concrete empty-wallet state. -/
theorem claim7_empty_wallets_witness :
    (loopIter envDemo (fun _ => "7") { wallets := [], pos := 0, rng := 0 }).2.1 =
      { wallets := [], pos := 0 + 1, rng := 0 } ∧
    (loopIter envDemo (fun _ => "7") { wallets := [], pos := 0, rng := 0 }).2.2
      = true :=
  ⟨(claim7_empty_wallets envDemo (fun _ => "7")
      { wallets := [], pos := 0, rng := 0 } rfl rfl).2.2.1,
   (claim7_empty_wallets envDemo (fun _ => "7")
      { wallets := [], pos := 0, rng := 0 } rfl rfl).2.2.2⟩

/-! ## Claim C8 -/

/-- C8: during transaction simulation, locally invalid numeric entry is
print-and-continue and never fatal: a parsed wallet index outside
1..length(wallets) prints "Invalid selection." and returns to the menu; a
non-numeric wallet index or BTC amount (Python ValueError) prints the
"Invalid input." message and returns to the menu; in every such case the
wallet list is unchanged and the loop continues (the embedding is total, so
no case aborts the process). -/
theorem claim8_sim_validation (env : Env) (stdin : Nat → String) (st : St)
    (h7 : stdin st.pos = "7") (hw : st.wallets ≠ []) :
    (∀ n, env.parseInt (stdin (st.pos + 1)) = some n →
       (n - 1 < 0 ∨ (st.wallets.length : Int) ≤ n - 1) →
       Event.print "Invalid selection." ∈ (loopIter env stdin st).1 ∧
       (loopIter env stdin st).2.1.wallets = st.wallets ∧
       (loopIter env stdin st).2.2 = true) ∧
    (env.parseInt (stdin (st.pos + 1)) = none →
       Event.print "Invalid input. Please enter a valid number."
         ∈ (loopIter env stdin st).1 ∧
       (loopIter env stdin st).2.1.wallets = st.wallets ∧
       (loopIter env stdin st).2.2 = true) ∧
    (∀ n, env.parseInt (stdin (st.pos + 1)) = some n →
       ¬(n - 1 < 0 ∨ (st.wallets.length : Int) ≤ n - 1) →
       env.parseFloat (stdin (st.pos + 1 + 1 + 1)) = none →
       Event.print "Invalid input. Please enter a valid number."
         ∈ (loopIter env stdin st).1 ∧
       (loopIter env stdin st).2.1.wallets = st.wallets ∧
       (loopIter env stdin st).2.2 = true) := by
  have hd : menuDispatch (stdin st.pos) = .a7 := by rw [h7]; rfl
  refine ⟨?_, ?_, ?_⟩
  · intro n hn hr
    have hr' : (n < 1 ∨ (st.wallets.length : Int) ≤ n - 1) := by omega
    refine ⟨?_, ?_, ?_⟩ <;> simp [loopIter, hd, action7, hw, hn, hr', show_menu]
  · intro hn
    refine ⟨?_, ?_, ?_⟩ <;> simp [loopIter, hd, action7, hw, hn, show_menu]
  · intro n hn hr hpf
    have hr' : ¬(n < 1 ∨ (st.wallets.length : Int) ≤ n - 1) := by omega
    refine ⟨?_, ?_, ?_⟩ <;>
      simp [loopIter, hd, action7, hw, hn, hr', hpf, show_menu]

/-- C8 witness: out-of-range index, non-numeric index, and non-numeric
amount, each at a concrete one-wallet state. -/
theorem claim8_sim_validation_witness :
    Event.print "Invalid selection." ∈
      (loopIter envDemo (fun k => if k = 0 then "7" else "5")
        { wallets := [wDemo], pos := 0, rng := 0 }).1 ∧
    Event.print "Invalid input. Please enter a valid number." ∈
      (loopIter envDemo (fun k => if k = 0 then "7" else "abc")
        { wallets := [wDemo], pos := 0, rng := 0 }).1 ∧
    Event.print "Invalid input. Please enter a valid number." ∈
      (loopIter envDemo
        (fun k => if k = 0 then "7" else if k = 1 then "1"
                  else if k = 3 then "abc" else "1Dest")
        { wallets := [wDemo], pos := 0, rng := 0 }).1 :=
  ⟨((claim8_sim_validation envDemo (fun k => if k = 0 then "7" else "5")
      { wallets := [wDemo], pos := 0, rng := 0 } rfl (by decide)).1
      5 (by decide) (by decide)).1,
   ((claim8_sim_validation envDemo (fun k => if k = 0 then "7" else "abc")
      { wallets := [wDemo], pos := 0, rng := 0 } rfl (by decide)).2.1
      (by decide)).1,
   ((claim8_sim_validation envDemo
      (fun k => if k = 0 then "7" else if k = 1 then "1"
                else if k = 3 then "abc" else "1Dest")
      { wallets := [wDemo], pos := 0, rng := 0 } rfl (by decide)).2.2
      1 (by decide) (by decide) (by decide)).1⟩

/-! ## Claim C9 -/

theorem creating_ne_estimating (r r' : String) :
    "Error creating transaction: " ++ r ≠ "Error estimating fee: " ++ r' := by
  intro h
  have hd := congrArg String.data h
  rw [String.data_append, String.data_append] at hd
  have h1 := congrArg (List.take 21) hd
  rw [List.take_append_of_le_length (by decide),
      List.take_append_of_le_length (by decide)] at h1
  exact absurd h1 (by decide)

/-- C9: when fee estimation fails, `simulate_transaction` passes
`estimate_fee`'s error string verbatim as the fee argument to the
transaction builder, and any resulting failure surfaces as a string
beginning "Error creating transaction:" — never as a fee error,
indistinguishable from any other build failure. -/
theorem claim9_fee_error (env : Env) (source_wif destination : String)
    (amount : Rat) (e : String) (hfee : env.getFeeCached = .error e) :
    Event.call (.createTransaction source_wif [(destination, amount, "btc")]
        (.err ("Error estimating fee: " ++ e)) true txMessage)
      ∈ (simulate_transaction env source_wif destination amount).1 ∧
    (∀ s, (simulate_transaction env source_wif destination amount).2 = .err s →
       (∃ r, s = "Error creating transaction: " ++ r) ∧
       ¬∃ r, s = "Error estimating fee: " ++ r) := by
  constructor
  · simp only [simulate_transaction, estimate_fee, hfee]
    split <;> simp
  · intro s hs
    simp only [simulate_transaction, estimate_fee, hfee] at hs
    cases hc : env.createTransaction source_wif [(destination, amount, "btc")]
        (Ret.err ("Error estimating fee: " ++ e)) true txMessage with
    | ok hex =>
      rw [hc] at hs
      simp at hs
    | error e2 =>
      rw [hc] at hs
      simp at hs
      subst hs
      exact ⟨⟨e2, rfl⟩, by rintro ⟨r, hr⟩; exact creating_ne_estimating e2 r hr⟩

/-- C9 witness: the failing environment exercises both conjuncts. -/
theorem claim9_fee_error_witness :
    Event.call (.createTransaction "K" [("1Dest", 2, "btc")]
        (.err ("Error estimating fee: " ++ "fee service down")) true txMessage)
      ∈ (simulate_transaction envFail "K" "1Dest" 2).1 ∧
    (∃ r, "Error creating transaction: " ++ "tx build failed" =
        "Error creating transaction: " ++ r) ∧
    ¬∃ r, "Error creating transaction: " ++ "tx build failed" =
        "Error estimating fee: " ++ r :=
  ⟨(claim9_fee_error envFail "K" "1Dest" 2 "fee service down" rfl).1,
   (claim9_fee_error envFail "K" "1Dest" 2 "fee service down" rfl).2
     ("Error creating transaction: " ++ "tx build failed") rfl⟩

/-! ## Claim C10 -/

/-- C10: on a successful simulation the 'source' field of the returned
record is recomputed from the WIF via the legacy (P2PKH) derivation rather
than copied from the selected wallet record; for a SegWit-created wallet
whose stored address differs from the legacy derivation of its key, the
reported source address therefore differs from the wallet's stored
address. -/
theorem claim10_source_recomputed (env : Env) (rng : Nat)
    (destination : String) (amount : Rat) (tx_hex : String)
    (hok : env.createTransaction (create_segwit_wallet env rng).1.private_key
        [(destination, amount, "btc")] (estimate_fee env).2 true txMessage =
        .ok tx_hex)
    (hne : env.keyAddress (create_segwit_wallet env rng).1.private_key ≠
        (create_segwit_wallet env rng).1.address) :
    ∃ r, (simulate_transaction env (create_segwit_wallet env rng).1.private_key
        destination amount).2 = .val r ∧
      r.source = env.keyAddress (create_segwit_wallet env rng).1.private_key ∧
      r.source ≠ (create_segwit_wallet env rng).1.address := by
  refine ⟨{ source := env.keyAddress (create_segwit_wallet env rng).1.private_key,
            destination := destination, amount_btc := amount, tx_hex := tx_hex },
          ?_, rfl, hne⟩
  simp only [estimate_fee] at hok
  simp [simulate_transaction, estimate_fee, hok]

/-- C10 witness: in the demo environment the legacy and SegWit derivations
differ, so the reported source differs from the stored address. -/
theorem claim10_source_recomputed_witness :
    ∃ r, (simulate_transaction envDemo
        (create_segwit_wallet envDemo 0).1.private_key "1Dest" 2).2 = .val r ∧
      r.source = envDemo.keyAddress (create_segwit_wallet envDemo 0).1.private_key ∧
      r.source ≠ (create_segwit_wallet envDemo 0).1.address :=
  claim10_source_recomputed envDemo 0 "1Dest" 2 "0200deadbeef" rfl (by decide)

end BitcoinLab
